import Mathlib

/-!
Verification development for the RCS ticket-resolution workflow.

The definitions below are a shallow embedding of the Python source:

* `src/guardrails/pii_guardrails.py` (`GuardrailsManager.check_pii` and its
  helper methods);
* `src/tools/ticket_tools.py` (`insert_row_to_text_file`,
  `update_value_in_text_file`, `get_table_info`);
* `src/graph/nodes.py` (`query_refinement_check`, `ticket_refinement_step`,
  `query_refinement`, the fallback branch of `reasoning_agent_node`);
* `src/graph/supervisor_graph.py` / `src/agents/specialized_agents.py`
  (the supervisor dispatch loop wiring);
* `src/models/data_models.py` (the pydantic record shapes).

Modelling conventions: Python strings are Lean `String`s and Python string
indexing/slicing is performed on `String.toList` (Python indexes code
points); floats carried in JSON payloads are modelled as `ℚ`; a fallible
Python call is an `Except`; the LLM backend and `json.loads` are opaque
external calls and appear as explicit parameters; wall-clock timestamps are
external and not modelled.
-/

deriving instance DecidableEq for Except

/-- Python `str.isspace`-style whitespace as used by `str.strip()`
(ASCII whitespace set). -/
def pyIsSpace (c : Char) : Bool :=
  c = ' ' || c = '\t' || c = '\n' || c = '\r' || c = '\x0b' || c = '\x0c'

/-- Python `str.strip()`: drop leading and trailing whitespace. -/
def pyStrip (s : String) : String :=
  String.mk (((s.toList.dropWhile pyIsSpace).reverse.dropWhile pyIsSpace).reverse)

/-- Python `str.lower()` (per character). -/
def pyLower (s : String) : String :=
  String.mk (s.toList.map Char.toLower)

/-- Python `str.upper()` (per character). -/
def pyUpper (s : String) : String :=
  String.mk (s.toList.map Char.toUpper)

/-- Python `len(s)` (number of code points). -/
def pyLen (s : String) : Nat :=
  s.toList.length

/-- Python `s[:n]`. -/
def pyTake (s : String) (n : Nat) : String :=
  String.mk (s.toList.take n)

/-- Python `s[a:b]` for non-negative bounds. -/
def pySlice (s : String) (a b : Nat) : String :=
  String.mk ((s.toList.take b).drop a)

/-- Python `needle in hay` substring test. -/
def strContainsSub (hay needle : String) : Bool :=
  (List.range (hay.toList.length + 1)).any
    (fun i => needle.toList.isPrefixOf (hay.toList.drop i))

/-- Python `s.find(c)`: index of the first occurrence, `-1` if absent. -/
def pyFind (s : String) (c : Char) : Int :=
  match s.toList.findIdx? (fun x => x = c) with
  | some i => (i : Int)
  | none => -1

/-- Python `s.rfind(c)`: index of the last occurrence, `-1` if absent. -/
def pyRfind (s : String) (c : Char) : Int :=
  match s.toList.reverse.findIdx? (fun x => x = c) with
  | some i => ((s.toList.length - 1 - i : Nat) : Int)
  | none => -1

/-! ## PII guardrails (`src/guardrails/pii_guardrails.py`) -/

/-- Result record of `GuardrailsManager.check_pii`
(`PIIDetectionResult` in `src/models/data_models.py`; the wall-clock
`timestamp` field is not modelled). -/
structure PIIDetectionResult where
  pii_found : Bool
  pii_types : List String
  pii_count : Nat
  detection_details : List String
  ticket_excerpt : String
  session_id : String
deriving Repr, DecidableEq

/-- Refusal indicators scanned in a successful guardrails response
(`check_pii`, lines 89-96). -/
def refusalKeywords : List String :=
  ["cannot process",
   "contains personally identifiable information",
   "contains pii",
   "remove any personal information",
   "personally identifiable information",
   "refuse to process"]

/-- Keywords that make a guardrails exception count as a block decision
(`check_pii`, lines 119-121). -/
def piiErrorKeywords : List String :=
  ["pii", "personal", "sensitive", "refuse", "block"]

/-- Known PII entity tags (`_extract_pii_types_from_error`, lines 181-184). -/
def knownEntities : List String :=
  ["PERSON", "EMAIL_ADDRESS", "PHONE_NUMBER", "CREDIT_CARD",
   "US_SSN", "IP_ADDRESS", "LOCATION", "DATE_TIME"]

/-- Keyword-to-tag table of `_extract_pii_types_from_response`. -/
def responsePiiKeywords : List (String × String) :=
  [("NAME", "PERSON"),
   ("EMAIL", "EMAIL_ADDRESS"),
   ("PHONE", "PHONE_NUMBER"),
   ("ADDRESS", "LOCATION"),
   ("SOCIAL SECURITY", "US_SSN"),
   ("CREDIT CARD", "CREDIT_CARD"),
   ("IP ADDRESS", "IP_ADDRESS")]

/-- `GuardrailsManager._extract_pii_types_from_response`. -/
def extract_pii_types_from_response (response_content : String) : List String :=
  let found := (responsePiiKeywords.filter
    (fun kv => strContainsSub (pyUpper response_content) kv.1)).map (fun kv => kv.2)
  if found = [] then ["PII_DETECTED"] else found

/-- `GuardrailsManager._extract_pii_types_from_error`. -/
def extract_pii_types_from_error (error_msg : String) : List String :=
  knownEntities.filter (fun e => strContainsSub (pyUpper error_msg) e)

/-- `GuardrailsManager._create_excerpt` with its default `max_length = 150`. -/
def create_excerpt (text : String) : String :=
  if pyLen text ≤ 150 then text else pyTake text 150 ++ "..."

/-- `GuardrailsManager._create_empty_result`. -/
def create_empty_result (session_id text : String) : PIIDetectionResult :=
  { pii_found := false
    pii_types := []
    pii_count := 0
    detection_details := []
    ticket_excerpt := if text = "" then "" else text
    session_id := session_id }

/-- Outcome of the external NeMo guardrails call `self._rails.generate`:
either a response text or a raised exception message. -/
inductive BackendOutcome where
  | response (content : String)
  | exception (message : String)
deriving Repr, DecidableEq

/-- `GuardrailsManager.check_pii`. The second component records whether the
detection backend was invoked at all. A re-raised exception surfaces as
`Except.error` with the original message. -/
def check_pii (text : String) (backend : BackendOutcome) (session_id : String) :
    Except String PIIDetectionResult × Bool :=
  if text = "" ∨ pyStrip text = "" then
    (Except.ok (create_empty_result session_id text), false)
  else
    match backend with
    | .response content =>
      let response_lower := pyLower content
      let pii_detected := refusalKeywords.any (fun k => strContainsSub response_lower k)
      if pii_detected then
        let pii_types := extract_pii_types_from_response content
        (Except.ok
          { pii_found := true
            pii_types := if pii_types = [] then ["PII_DETECTED"] else pii_types
            pii_count := if pii_types = [] then 1 else pii_types.length
            detection_details := []
            ticket_excerpt := create_excerpt text
            session_id := session_id }, true)
      else
        (Except.ok (create_empty_result session_id text), true)
    | .exception message =>
      let error_msg := pyLower message
      if piiErrorKeywords.any (fun k => strContainsSub error_msg k) then
        let pii_types := extract_pii_types_from_error message
        (Except.ok
          { pii_found := true
            pii_types := if pii_types = [] then ["PII_DETECTED"] else pii_types
            pii_count := if pii_types = [] then 1 else pii_types.length
            detection_details := []
            ticket_excerpt := create_excerpt text
            session_id := session_id }, true)
      else
        (Except.error message, true)

/-! ## Tabular text-file store (`src/tools/ticket_tools.py`) -/

/-- In-memory view of one `table_data/<name>.txt` file: the header row and
the data rows, as parsed by `csv.reader`. -/
structure TableFile where
  headers : List String
  rows : List (List String)
deriving Repr, DecidableEq

/-- Lookup in a Python dict built by a comprehension over a pair list:
for duplicate keys the later entry wins. -/
def dictGet (pairs : List (String × String)) (key : String) : Option String :=
  ((pairs.filter (fun kv => kv.1 = key)).getLast?).map (fun kv => kv.2)

/-- Result of `insert_row_to_text_file` (the `status`/`message` dict is
abstracted to its discriminating content). -/
inductive InsertOutcome where
  | fileNotFound
  | noHeaders
  | missingColumns (missing : List String)
  | success (inserted_row : List String)
deriving Repr, DecidableEq

/-- The row values put in header order by `insert_row_to_text_file`
(line 81): `row_data_lower.get(header.lower(), '')` for each header. -/
def orderedRowOf (headers : List String) (row_data : List (String × String)) :
    List String :=
  let row_data_lower := row_data.map (fun kv => (pyLower kv.1, kv.2))
  headers.map (fun h => (dictGet row_data_lower (pyLower h)).getD "")

/-- `insert_row_to_text_file`: `none` models a missing table file. Note the
source validates column presence only and then unconditionally appends the
new row; there is no duplicate-key lookup anywhere in the function. -/
def insert_row_to_text_file (file : Option TableFile)
    (row_data : List (String × String)) : InsertOutcome × Option TableFile :=
  match file with
  | none => (.fileNotFound, none)
  | some tbl =>
    if tbl.headers = [] then (.noHeaders, some tbl)
    else
      let row_data_lower := row_data.map (fun kv => (pyLower kv.1, kv.2))
      let missing_columns :=
        tbl.headers.filter (fun h => (dictGet row_data_lower (pyLower h)).isNone)
      if missing_columns = [] then
        let ordered_row := orderedRowOf tbl.headers row_data
        (.success ordered_row,
         some { headers := tbl.headers, rows := tbl.rows ++ [ordered_row] })
      else
        (.missingColumns missing_columns, some tbl)

/-- Result of `get_table_info` (discriminating fields of the returned dict). -/
inductive TableInfoOutcome where
  | fileNotFound
  | columnNotFound
  | success (data_exists : Bool) (matching_count : Nat)
      (total_records : Nat) (operation_needed : Bool)
deriving Repr, DecidableEq

/-- Column resolution of `get_table_info` (lines 387-390): first header with
case-insensitive, stripped equality. -/
def findColumnIndex (headers : List String) (column_name : String) : Option Nat :=
  headers.findIdx? (fun h => pyLower (pyStrip h) = pyLower (pyStrip column_name))

/-- `get_table_info`: reports whether data matching `search_value` already
exists in the column, without mutating the table. -/
def get_table_info (file : Option TableFile) (column_name : String)
    (search_value : Option String) : TableInfoOutcome :=
  match file with
  | none => .fileNotFound
  | some tbl =>
    match findColumnIndex tbl.headers column_name with
    | none => .columnNotFound
    | some column_index =>
      let all_records := tbl.rows.filter (fun row => column_index < row.length)
      let matching_records :=
        match search_value with
        | some v => all_records.filter
            (fun (row : List String) => pyStrip (row.getD column_index "") = pyStrip v)
        | none => []
      let data_exists :=
        match search_value with
        | some _ => decide (0 < matching_records.length)
        | none => decide (0 < all_records.length)
      let operation_needed :=
        match search_value with
        | some _ => !data_exists
        | none => true
      .success data_exists matching_records.length all_records.length operation_needed

/-- Result of `update_value_in_text_file`. -/
inductive UpdateOutcome where
  | fileNotFound
  | noHeaders
  | searchColumnNotFound
  | updateColumnNotFound
  | noMatches
  | success (updated_count : Nat)
deriving Repr, DecidableEq

/-- The `header_map` dict of `update_value_in_text_file` (line 159):
lowercased header to original header, later duplicates winning. -/
def headerMapGet (headers : List String) (key : String) : Option String :=
  (headers.filter (fun h => pyLower h = key)).getLast?

/-- Match test applied to one data row by `update_value_in_text_file`
(lines 192-193): the row is long enough for both columns and its search
cell equals the search value after stripping. -/
def rowMatches (search_index update_index : Nat) (search_value : String)
    (row : List String) : Bool :=
  (max search_index update_index < row.length) &&
    (pyStrip (row.getD search_index "") = pyStrip search_value)

/-- Per-row effect of `update_value_in_text_file` (lines 191-204): a
matching row gets its update cell overwritten, any other row is kept. -/
def updateRow (search_index update_index : Nat) (search_value new_value : String)
    (row : List String) : List String :=
  if rowMatches search_index update_index search_value row then
    row.set update_index new_value
  else row

/-- `update_value_in_text_file`. When no row matches, the source returns a
warning without rewriting the file; otherwise it writes back the header row
followed by the processed rows. -/
def update_value_in_text_file (file : Option TableFile)
    (search_column search_value update_column new_value : String) :
    UpdateOutcome × Option TableFile :=
  match file with
  | none => (.fileNotFound, none)
  | some tbl =>
    if tbl.headers = [] then (.noHeaders, some tbl)
    else
      match headerMapGet tbl.headers (pyLower search_column) with
      | none => (.searchColumnNotFound, some tbl)
      | some actual_search_column =>
        match headerMapGet tbl.headers (pyLower update_column) with
        | none => (.updateColumnNotFound, some tbl)
        | some actual_update_column =>
          let search_index := tbl.headers.indexOf actual_search_column
          let update_index := tbl.headers.indexOf actual_update_column
          let new_rows :=
            tbl.rows.map (updateRow search_index update_index search_value new_value)
          let updated_count :=
            (tbl.rows.filter (rowMatches search_index update_index search_value)).length
          if updated_count = 0 then (.noMatches, some tbl)
          else (.success updated_count,
                some { headers := tbl.headers, rows := new_rows })

/-! ## Intake and refinement stages (`src/graph/nodes.py`) -/

/-- `REASONING_AGENT` from `src/config/constants.py`. -/
def REASONING_AGENT : String := "Reasoning Agent"

/-- Fields that `query_refinement_check` reads out of the decoded JSON
dict via `analysis_data.get(...)`; every field may be absent. -/
structure AnalysisData where
  ticket_description : Option String
  incomplete_flag : Option Bool
  reason : Option String
  confidence_score : Option ℚ
  refined_query : Option String
deriving Repr, DecidableEq

/-- `QueryRefinementOutput` record (`src/models/data_models.py`;
the wall-clock `timestamp` field is not modelled). -/
structure QueryRefinementOutput where
  ticket_description : String
  incomplete_flag : Bool
  reason : String
  confidence_score : ℚ
  session_id : String
  refined_query : Option String
  next_step : String
deriving Repr, DecidableEq

/-- Uncaught Python exceptions that abort a stage node. -/
inductive RunError where
  | nameError (name : String)
  | ioError (message : String)
deriving Repr, DecidableEq

/-- The routing decision computed by `query_refinement_check` (line 111):
`"Refine Query Step" if confidence_score < 0.50 else "Label Analysis Step"`. -/
def next_step_for_confidence (confidence_score : ℚ) : String :=
  if confidence_score < 0.50 then "Refine Query Step" else "Label Analysis Step"

/-- The conditional-edge router `query_refinement` (lines 240-254), applied
to the `next_step` stored in the state. -/
def query_refinement (next_step : String) : String :=
  if next_step = "Refine Query Step" then "Ticket Refinement Step"
  else if next_step = "Label Analysis Step" then REASONING_AGENT
  else REASONING_AGENT

/-- `query_refinement_check` (lines 62-159), from the point where the LLM
response `content` is in hand. `json_loads` is the external `json.loads`
(its error value is `str(e)`); `persist` is the session-folder write, which
the source performs without any surrounding try/except. When `content`
holds no brace-delimited span, the `try` body falls through without binding
`query_output` and the final `return` raises `NameError`. -/
def query_refinement_check (ticket_description session_id content : String)
    (json_loads : String → Except String AnalysisData)
    (persist : Except String Unit) : Except RunError QueryRefinementOutput :=
  let start_idx := pyFind content '\x7b'
  let end_idx := pyRfind content '\x7d' + 1
  if start_idx ≠ -1 ∧ end_idx ≠ 0 then
    let json_str := pySlice content start_idx.toNat end_idx.toNat
    match json_loads json_str with
    | .ok analysis_data =>
      let confidence_score := analysis_data.confidence_score.getD 1.0
      let next_step := next_step_for_confidence confidence_score
      let query_output : QueryRefinementOutput :=
        { ticket_description := analysis_data.ticket_description.getD ticket_description
          incomplete_flag := analysis_data.incomplete_flag.getD false
          reason := analysis_data.reason.getD ""
          confidence_score := confidence_score
          session_id := session_id
          refined_query := analysis_data.refined_query
          next_step := next_step }
      match persist with
      | .ok _ => .ok query_output
      | .error e => .error (.ioError e)
    | .error e =>
      let query_output : QueryRefinementOutput :=
        { ticket_description := ticket_description
          incomplete_flag := true
          reason := "Failed to parse response: " ++ e
          confidence_score := 0.0
          session_id := session_id
          refined_query := none
          next_step := "Refine Query Step" }
      match persist with
      | .ok _ => .ok query_output
      | .error e2 => .error (.ioError e2)
  else
    .error (.nameError "query_output")

/-- `InputTicket` record (`src/models/data_models.py`; timestamp omitted). -/
structure InputTicket where
  ticket_id : String
  ticket_description : String
  source : String
  priority : Option String
  category : Option String
deriving Repr, DecidableEq

/-- `TicketRefinementOutput` record (timestamp omitted). -/
structure TicketRefinementOutput where
  initial_ticket : InputTicket
  refined_ticket : String
  refinement_reason : String
  confidence_score : ℚ
  session_id : String
deriving Repr, DecidableEq

/-- Fields read out of the decoded refinement JSON. -/
structure RefinementData where
  refined_ticket : Option String
  refinement_reason : Option String
  confidence_score : Option ℚ
deriving Repr, DecidableEq

/-- `ticket_refinement_step` (lines 162-237), from the point where the LLM
response `content` is in hand. Unlike the intake node, its session write
(lines 210-216) sits inside `try/except Exception`, so the `persist`
outcome never influences the returned value; on JSON decode failure the
original ticket text is passed through with confidence `0.0`. The same
no-brace fall-through as in `query_refinement_check` leaves
`refinement_output` unbound and raises `NameError`. -/
def ticket_refinement_step (input_ticket : InputTicket) (session_id content : String)
    (json_loads : String → Except String RefinementData)
    (persist : Except String Unit) : Except RunError TicketRefinementOutput :=
  let start_idx := pyFind content '\x7b'
  let end_idx := pyRfind content '\x7d' + 1
  if start_idx ≠ -1 ∧ end_idx ≠ 0 then
    let json_str := pySlice content start_idx.toNat end_idx.toNat
    match json_loads json_str with
    | .ok refinement_data =>
      .ok { initial_ticket := input_ticket
            refined_ticket :=
              refinement_data.refined_ticket.getD input_ticket.ticket_description
            refinement_reason := refinement_data.refinement_reason.getD ""
            confidence_score := refinement_data.confidence_score.getD 0.5
            session_id := session_id }
    | .error e =>
      .ok { initial_ticket := input_ticket
            refined_ticket := input_ticket.ticket_description
            refinement_reason := "Failed to parse refinement response: " ++ e
            confidence_score := 0.0
            session_id := session_id }
  else
    .error (.nameError "refinement_output")

/-! ## Planning stage fallback (`reasoning_agent_node`, `src/graph/nodes.py`
and `ReasoningOutput`, `src/models/data_models.py`) -/

/-- The closed action-category set of a plan step
(`ReasoningStep.action_type` comment in `src/models/data_models.py`). -/
inductive ActionType where
  | INSERT
  | UPDATE
  | DELETE
  | VERIFY
  | CONFIGURE
deriving Repr, DecidableEq

/-- `ReasoningStep` record (`src/models/data_models.py`, lines 41-47). -/
structure ReasoningStep where
  step_number : Nat
  action_type : ActionType
  description : String
  target : String
  details : String
deriving Repr, DecidableEq

/-- Field names of the pydantic model `ReasoningOutput`
(`src/models/data_models.py`, lines 49-57). Its plan field is the singular
`solution_step`. -/
def reasoningOutputFields : List String :=
  ["ticket_summary", "solution_step", "complexity_level", "estimated_time",
   "confidence_score", "session_id", "timestamp"]

/-- Keyword arguments passed to `ReasoningOutput(...)` by the fallback
branch of `reasoning_agent_node` (`src/graph/nodes.py`, lines 329-337).
The plan is passed as the plural `solution_steps`. -/
def fallbackReasoningKwargs : List String :=
  ["ticket_summary", "solution_steps", "complexity_level", "estimated_time",
   "confidence_score", "session_id", "timestamp"]

/-- Required fields a pydantic constructor call fails to supply: pydantic
raises `ValidationError` when any declared field (none of
`ReasoningOutput`'s fields has a default) is missing from the keyword
arguments. -/
def pydanticMissingFields (required provided : List String) : List String :=
  required.filter (fun f => !(provided.contains f))

/-- Outcome of a pydantic model construction: `ValidationError` listing the
missing required fields, or success. -/
def pydanticConstruct (required provided : List String) : Except (List String) Unit :=
  if pydanticMissingFields required provided = [] then .ok ()
  else .error (pydanticMissingFields required provided)

/-- The fallback step built by `reasoning_agent_node` (lines 321-327). -/
def fallback_reasoning_step (ticket_to_analyze error_text : String) : ReasoningStep :=
  { step_number := 1
    action_type := .VERIFY
    description := "Analyze ticket issue: " ++ ticket_to_analyze
    target := "System"
    details := "Failed to get structured response: " ++ error_text }

/-- The plan list the fallback branch passes as `solution_steps`
(line 331). -/
def fallback_solution_steps (ticket_to_analyze error_text : String) :
    List ReasoningStep :=
  [fallback_reasoning_step ticket_to_analyze error_text]

/-! ## Supervisor dispatch loop (`src/graph/supervisor_graph.py`,
`create_supervisor_agent` in `src/agents/specialized_agents.py`) -/

/-- The four worker agents the supervisor can hand off to
(`src/config/constants.py`): the MM Information Retrieval, MM Execution,
MM Validation and MM Report agents. -/
inductive WorkerAgent where
  | infoRetriever
  | execution
  | validation
  | report
deriving Repr, DecidableEq

/-- Nodes of the dispatch loop of the compiled supervisor graph:
the supervisor node, a worker node, or the `END` terminal. -/
inductive GraphNode where
  | supervisor
  | worker (a : WorkerAgent)
  | terminal
deriving Repr, DecidableEq

/-- One transition of the dispatch loop, as wired in
`create_supervisor_graph` (lines 61-83): the supervisor's next handoff is
chosen by its LLM, modelled as an `oracle` indexed by the number of
dispatch decisions already made; every worker except the report agent has a
static edge back to the supervisor; the report agent's edge goes to `END`.
The state pairs the dispatch-decision count with the current node. -/
def supervisorStep (oracle : Nat → WorkerAgent) :
    Nat × GraphNode → Nat × GraphNode
  | (k, .supervisor) => (k + 1, .worker (oracle k))
  | (k, .worker .infoRetriever) => (k, .supervisor)
  | (k, .worker .execution) => (k, .supervisor)
  | (k, .worker .validation) => (k, .supervisor)
  | (k, .worker .report) => (k, .terminal)
  | (k, .terminal) => (k, .terminal)

/-- Trace of the dispatch loop, entered at the supervisor node (the static
edge `Reasoning Agent → Domain Supervisor Agent`) with no decisions made. -/
def supervisorTrace (oracle : Nat → WorkerAgent) : Nat → Nat × GraphNode
  | 0 => (0, .supervisor)
  | n + 1 => supervisorStep oracle (supervisorTrace oracle n)

/-- Stage eligible for a plan step's action category, per the supervisor
prompt in `create_supervisor_agent`: INSERT/UPDATE/DELETE/CONFIGURE go to
the execution agent, VERIFY to the validation agent. -/
def eligibleAgent : ActionType → WorkerAgent
  | .VERIFY => .validation
  | _ => .execution

/-- A well-behaved supervisor LLM that follows its prompt's termination
rules: dispatch decision `i` covers plan ordinal `i`, and once every plan
step is addressed the next decision hands off to the report agent. The
source enforces none of this programmatically; it is one possible behaviour
of the oracle. -/
def planOracle (plan : List ReasoningStep) : Nat → WorkerAgent :=
  fun i =>
    if h : i < plan.length then eligibleAgent (plan.get ⟨i, h⟩).action_type
    else .report

/-- An ill-behaved supervisor LLM that keeps re-dispatching the validation
agent forever; nothing in the source rules this behaviour out. -/
def loopingOracle : Nat → WorkerAgent :=
  fun _ => .validation

/-- A concrete one-step plan (one VERIFY step). -/
def singleStepPlan : List ReasoningStep :=
  [{ step_number := 1
     action_type := .VERIFY
     description := "Verify user login service"
     target := "auth"
     details := "" }]

/-- Concrete table with one data row keyed by `id = 1`. -/
def c4_table : TableFile :=
  { headers := ["id", "name"], rows := [["1", "alice"]] }

/-- Row data whose key `id = 1` already exists in `c4_table`. -/
def c4_row : List (String × String) :=
  [("id", "1"), ("name", "alice")]

/-- A ticket text of 151 identical characters. -/
def sample151 : String := String.mk (List.replicate 151 'a')

/-- Concrete table for the C9 witness, including a short (ragged) row. -/
def c9_table : TableFile :=
  { headers := ["id", "name"], rows := [["1", "alice"], ["2", "bob"], ["x"]] }

/-- Invariant tying the dispatch-decision count to the current node for a
run driven by `planOracle plan`: at the supervisor at most `N` decisions
have been made, at the report worker exactly `N + 1`, at any other worker
at most `N`, and at the terminal at most `N + 1` (where `N` is the plan
length). -/
def boundedState (N : Nat) : Nat × GraphNode → Prop
  | (k, GraphNode.supervisor) => k ≤ N
  | (k, GraphNode.worker WorkerAgent.report) => k = N + 1
  | (k, GraphNode.worker _) => k ≤ N
  | (k, GraphNode.terminal) => k ≤ N + 1

/-! ## Claim theorems -/

/-- C2: a confidence score strictly below 0.50 routes the workflow to the
Ticket Refinement (Refine) step and a score of 0.50 or more routes directly
to the Reasoning agent (Planning); in particular 0.49 routes to Refine and
0.50 routes to Planning. -/
theorem confidence_threshold_routing (c : ℚ) :
    (c < 0.50 →
      query_refinement (next_step_for_confidence c) = "Ticket Refinement Step") ∧
    (0.50 ≤ c →
      query_refinement (next_step_for_confidence c) = REASONING_AGENT) := by
  constructor
  · intro h
    rw [next_step_for_confidence, if_pos h, query_refinement, if_pos rfl]
  · intro h
    rw [next_step_for_confidence, if_neg (not_lt.mpr h), query_refinement,
      if_neg (by decide), if_pos rfl]

/-- C2 witness: boundary instances 0.49 and 0.50. -/
theorem confidence_threshold_routing_witness :
    query_refinement (next_step_for_confidence 0.49) = "Ticket Refinement Step" ∧
    query_refinement (next_step_for_confidence 0.50) = REASONING_AGENT :=
  ⟨(confidence_threshold_routing 0.49).1 (by norm_num),
   (confidence_threshold_routing 0.50).2 (by norm_num)⟩

/-- C3: the fallback branch of `reasoning_agent_node` does build a one-step
plan whose only step has action category VERIFY, but it passes it to the
`ReasoningOutput` constructor under the keyword `solution_steps` while the
pydantic model declares the required field `solution_step`; the
construction therefore raises a `ValidationError` (missing field
`solution_step`) instead of returning the fallback plan. -/
theorem reasoning_fallback_construction_raises :
    pydanticConstruct reasoningOutputFields fallbackReasoningKwargs =
      Except.error ["solution_step"] ∧
    (∀ ticket_to_analyze error_text : String,
      (fallback_solution_steps ticket_to_analyze error_text).length = 1 ∧
      (fallback_reasoning_step ticket_to_analyze error_text).action_type =
        ActionType.VERIFY) :=
  ⟨rfl, fun _ _ => ⟨rfl, rfl⟩⟩

/-- C6: on a JSON decode failure the intake stage does return the fallback
output with confidence 0.0 routed to the Refine step, but when the LLM
response contains no brace-delimited span at all the `try` body of
`query_refinement_check` falls through without binding `query_output` and
the final `return` raises `NameError` — the run aborts instead of falling
back. -/
theorem intake_parse_failure_nameerror :
    query_refinement_check "desc" "sess" "Unable to analyze this ticket"
        (fun _ => Except.error "Expecting value") (Except.ok ()) =
      Except.error (RunError.nameError "query_output") ∧
    query_refinement_check "desc" "sess" "\x7bbad\x7d"
        (fun _ => Except.error "Expecting value") (Except.ok ()) =
      Except.ok
        { ticket_description := "desc"
          incomplete_flag := true
          reason := "Failed to parse response: Expecting value"
          confidence_score := 0.0
          session_id := "sess"
          refined_query := none
          next_step := "Refine Query Step" } :=
  ⟨rfl, rfl⟩

/-- C7 counterexample: in the intake stage (`query_refinement_check`) the
session-folder write is not wrapped in any try/except, so a failing write
aborts the stage with the I/O error instead of being swallowed. -/
theorem intake_session_write_failure_aborts :
    query_refinement_check "desc" "sess" "ok \x7bjson\x7d"
        (fun _ => Except.ok
          { ticket_description := some "desc"
            incomplete_flag := some false
            reason := some "complete"
            confidence_score := some 0.82
            refined_query := none })
        (Except.error "disk full") =
      Except.error (RunError.ioError "disk full") := rfl

/-- C7 amended: in every stage other than intake — here
`ticket_refinement_step`, whose session write sits inside
`try/except Exception` — the returned value is independent of the
persistence outcome, and a session-write failure never surfaces as an I/O
error (the only possible outcomes are a refinement output or the unrelated
no-brace `NameError`). -/
theorem session_write_failure_swallowed_elsewhere (input_ticket : InputTicket)
    (session_id content : String)
    (json_loads : String → Except String RefinementData)
    (persist : Except String Unit) :
    ticket_refinement_step input_ticket session_id content json_loads persist =
      ticket_refinement_step input_ticket session_id content json_loads
        (Except.ok ()) ∧
    ((∃ out, ticket_refinement_step input_ticket session_id content json_loads
        persist = Except.ok out) ∨
      ticket_refinement_step input_ticket session_id content json_loads persist =
        Except.error (RunError.nameError "refinement_output")) := by
  refine ⟨rfl, ?_⟩
  rw [ticket_refinement_step]
  split
  · rcases hjl : json_loads (pySlice content (pyFind content '\x7b').toNat
      (pyRfind content '\x7d' + 1).toNat) with e | d
    · simp only [hjl]
      exact Or.inl ⟨_, rfl⟩
    · simp only [hjl]
      exact Or.inl ⟨_, rfl⟩
  · exact Or.inr rfl

/-- C10: for input text that is empty or all whitespace, `check_pii`
returns the non-blocked empty result (`pii_found = false`, no categories,
`pii_count = 0`) and the detection backend is never invoked. -/
theorem blank_text_skips_pii_backend (text : String) (backend : BackendOutcome)
    (session_id : String) (h : pyStrip text = "") :
    check_pii text backend session_id =
      (Except.ok
        { pii_found := false
          pii_types := []
          pii_count := 0
          detection_details := []
          ticket_excerpt := if text = "" then "" else text
          session_id := session_id }, false) := by
  rw [check_pii.eq_def, if_pos (Or.inr h)]
  rfl

/-- C10 witness: a whitespace-only ticket with an exception-throwing
backend still yields the empty result without touching the backend. -/
theorem blank_text_skips_pii_backend_witness :
    check_pii "  \t " (BackendOutcome.exception "backend down") "sess" =
      (Except.ok
        { pii_found := false
          pii_types := []
          pii_count := 0
          detection_details := []
          ticket_excerpt := "  \t "
          session_id := "sess" }, false) := by
  rw [blank_text_skips_pii_backend _ _ _ (by decide)]
  rfl

/-- C4 counterexample: `get_table_info` reports that key `id = 1` already
exists in `c4_table` (`data_exists = true`, `operation_needed = false`),
yet inserting that same row twice through `insert_row_to_text_file` yields
a success outcome both times — not a duplicate outcome — and grows the
table from one data row to three: the insert function itself performs no
duplicate-key verification. -/
theorem duplicate_insert_counterexample :
    get_table_info (some c4_table) "id" (some "1") =
      TableInfoOutcome.success true 1 1 false ∧
    insert_row_to_text_file (some c4_table) c4_row =
      (InsertOutcome.success ["1", "alice"],
       some { headers := ["id", "name"],
              rows := [["1", "alice"], ["1", "alice"]] }) ∧
    insert_row_to_text_file (insert_row_to_text_file (some c4_table) c4_row).2 c4_row =
      (InsertOutcome.success ["1", "alice"],
       some { headers := ["id", "name"],
              rows := [["1", "alice"], ["1", "alice"], ["1", "alice"]] }) :=
  ⟨rfl, rfl, rfl⟩

/-- C4 amended: `insert_row_to_text_file` validates column presence only
and then appends unconditionally, so any insert that passes column
validation succeeds and appends — in particular repeating the same insert
succeeds again and appends a second copy of the row, growing the row count
each time. -/
theorem insert_appends_without_duplicate_check (tbl : TableFile)
    (row_data : List (String × String))
    (hh : ¬(tbl.headers = []))
    (hm : tbl.headers.filter
      (fun h => (dictGet (row_data.map (fun kv => (pyLower kv.1, kv.2)))
        (pyLower h)).isNone) = []) :
    insert_row_to_text_file (some tbl) row_data =
      (InsertOutcome.success (orderedRowOf tbl.headers row_data),
       some { headers := tbl.headers,
              rows := tbl.rows ++ [orderedRowOf tbl.headers row_data] }) ∧
    insert_row_to_text_file (insert_row_to_text_file (some tbl) row_data).2 row_data =
      (InsertOutcome.success (orderedRowOf tbl.headers row_data),
       some { headers := tbl.headers,
              rows := tbl.rows ++ [orderedRowOf tbl.headers row_data,
                                   orderedRowOf tbl.headers row_data] }) := by
  have h1 : insert_row_to_text_file (some tbl) row_data =
      (InsertOutcome.success (orderedRowOf tbl.headers row_data),
       some { headers := tbl.headers,
              rows := tbl.rows ++ [orderedRowOf tbl.headers row_data] }) := by
    rw [insert_row_to_text_file, if_neg hh]
    simp only [hm, if_pos rfl]
    rfl
  refine ⟨h1, ?_⟩
  rw [h1]
  rw [insert_row_to_text_file, if_neg hh]
  simp only [hm, if_pos rfl]
  simp [orderedRowOf, List.append_assoc]

/-- C4 witness: the amended theorem applied to the concrete duplicate
insert. -/
theorem insert_appends_without_duplicate_check_witness :
    insert_row_to_text_file (some c4_table) c4_row =
      (InsertOutcome.success (orderedRowOf c4_table.headers c4_row),
       some { headers := c4_table.headers,
              rows := c4_table.rows ++ [orderedRowOf c4_table.headers c4_row] }) ∧
    insert_row_to_text_file (insert_row_to_text_file (some c4_table) c4_row).2 c4_row =
      (InsertOutcome.success (orderedRowOf c4_table.headers c4_row),
       some { headers := c4_table.headers,
              rows := c4_table.rows ++ [orderedRowOf c4_table.headers c4_row,
                                        orderedRowOf c4_table.headers c4_row] }) :=
  insert_appends_without_duplicate_check c4_table c4_row (by decide) (by decide)

/-- C5: for a PII backend failure on non-blank input, `check_pii`
re-raises the error when its message holds none of the block-indicator
keywords, so the run aborts; when the message is recognizable as a block
indicator it returns a blocked result whose category tags are drawn from
the fixed tag vocabulary, with empty detection details and only a
truncated excerpt of the ticket text. -/
theorem pii_backend_failure_policy (text message session_id : String)
    (hblank : ¬(text = "" ∨ pyStrip text = "")) :
    (piiErrorKeywords.any (fun k => strContainsSub (pyLower message) k) = false →
      check_pii text (BackendOutcome.exception message) session_id =
        (Except.error message, true)) ∧
    (piiErrorKeywords.any (fun k => strContainsSub (pyLower message) k) = true →
      ∃ r, check_pii text (BackendOutcome.exception message) session_id =
          (Except.ok r, true) ∧
        r.pii_found = true ∧
        r.detection_details = [] ∧
        r.ticket_excerpt = create_excerpt text ∧
        ¬(r.pii_types = []) ∧
        (∀ t ∈ r.pii_types, t = "PII_DETECTED" ∨ t ∈ knownEntities)) := by
  simp only [check_pii.eq_def]
  rw [if_neg hblank]
  constructor
  · intro hfalse
    rw [if_neg (by simp [hfalse])]
  · intro htrue
    rw [if_pos htrue]
    refine ⟨_, rfl, rfl, rfl, rfl, ?_, ?_⟩
    · by_cases hempty : extract_pii_types_from_error message = []
      · simp [hempty]
      · simp [hempty]
    · intro t ht
      by_cases hempty : extract_pii_types_from_error message = []
      · rw [if_pos hempty] at ht
        exact Or.inl (List.mem_singleton.mp ht)
      · rw [if_neg hempty] at ht
        exact Or.inr (List.mem_filter.mp ht).1

/-- C5 witness: an unrelated backend error is re-raised; a blocked-style
error yields a blocked result with vocabulary-only categories. -/
theorem pii_backend_failure_policy_witness :
    check_pii "hello user" (BackendOutcome.exception "connection timed out") "s" =
      (Except.error "connection timed out", true) ∧
    (∃ r, check_pii "hello user"
        (BackendOutcome.exception "request blocked: EMAIL_ADDRESS") "s" =
          (Except.ok r, true) ∧
      r.pii_found = true ∧
      r.detection_details = [] ∧
      r.ticket_excerpt = create_excerpt "hello user" ∧
      ¬(r.pii_types = []) ∧
      (∀ t ∈ r.pii_types, t = "PII_DETECTED" ∨ t ∈ knownEntities)) :=
  ⟨(pii_backend_failure_policy "hello user" "connection timed out" "s"
      (by decide)).1 (by decide),
   (pii_backend_failure_policy "hello user" "request blocked: EMAIL_ADDRESS" "s"
      (by decide)).2 (by decide)⟩

/-- Strings append on their character lists. -/
theorem strToList_append (s t : String) : (s ++ t).toList = s.toList ++ t.toList := by
  cases s
  cases t
  rfl

set_option maxRecDepth 10000 in
/-- C8 counterexample: for a 151-character ticket text the excerpt built by
`create_excerpt` is the first 150 characters plus a three-character
ellipsis — 153 characters, strictly more than the claimed 150-character
bound. -/
theorem excerpt_153_counterexample :
    pyLen sample151 = 151 ∧
    (create_excerpt sample151).toList.length = 153 ∧
    150 < (create_excerpt sample151).toList.length := by
  refine ⟨by decide, ?_, ?_⟩ <;> decide

/-- C8 amended: a text of at most 150 characters is used as the excerpt in
full; a longer text is truncated to exactly 153 characters — its first 150
characters followed by the literal ellipsis — so the characters beyond
position 150 never appear in the excerpt. -/
theorem excerpt_truncation_amended (text : String) :
    (pyLen text ≤ 150 → create_excerpt text = text) ∧
    (150 < pyLen text →
      (create_excerpt text).toList.length = 153 ∧
      (create_excerpt text).toList.take 150 = text.toList.take 150 ∧
      (create_excerpt text).toList =
        text.toList.take 150 ++ ['.', '.', '.']) := by
  constructor
  · intro h
    rw [create_excerpt, if_pos h]
  · intro h
    have hform : (create_excerpt text).toList = text.toList.take 150 ++ ['.', '.', '.'] := by
      rw [create_excerpt, if_neg (not_le.mpr h), strToList_append]
      rfl
    have hlen : (text.toList.take 150).length = 150 := by
      rw [List.length_take]
      exact min_eq_left (le_of_lt h)
    refine ⟨?_, ?_, hform⟩
    · rw [hform, List.length_append, hlen]
      rfl
    · rw [hform, List.take_left' hlen]

set_option maxRecDepth 10000 in
/-- C8 witness: the amended characterization at a short and a long text. -/
theorem excerpt_truncation_amended_witness :
    create_excerpt "short ticket" = "short ticket" ∧
    (create_excerpt sample151).toList.length = 153 :=
  ⟨(excerpt_truncation_amended "short ticket").1 (by decide),
   ((excerpt_truncation_amended sample151).2 (by decide)).1⟩

/-- Writing a cell and reading the same position gives the new value. -/
theorem getD_set_self {α : Type} (l : List α) (i : Nat) (a d : α)
    (h : i < l.length) : (l.set i a).getD i d = a := by
  induction l generalizing i with
  | nil => simp at h
  | cons x xs ih =>
    cases i with
    | zero => rfl
    | succ j =>
      simp only [List.set, List.getD, List.getElem?_cons_succ]
      have := ih j (by simpa using h)
      simpa [List.getD] using this

/-- Writing a cell leaves every other position unchanged. -/
theorem getD_set_ne {α : Type} (l : List α) (i j : Nat) (a d : α)
    (h : ¬(j = i)) : (l.set i a).getD j d = l.getD j d := by
  induction l generalizing i j with
  | nil => simp [List.set]
  | cons x xs ih =>
    cases i with
    | zero =>
      cases j with
      | zero => exact absurd rfl h
      | succ k => rfl
    | succ i' =>
      cases j with
      | zero => rfl
      | succ k =>
        simp only [List.set, List.getD, List.getElem?_cons_succ]
        have := ih i' k (fun hk => h (by rw [hk]))
        simpa [List.getD] using this

/-- C9: on the success path of `update_value_in_text_file` the header row
is written back unchanged, the row count is preserved, every non-matching
row is written back verbatim, a matching row changes only its
update-column cell (set to the new value), and the reported updated count
equals the number of matching rows; when no row matches, the table is left
entirely unchanged. -/
theorem update_frame_property (tbl : TableFile)
    (search_column search_value update_column new_value : String)
    (actual_search actual_update : String)
    (hh : ¬(tbl.headers = []))
    (hs : headerMapGet tbl.headers (pyLower search_column) = some actual_search)
    (hu : headerMapGet tbl.headers (pyLower update_column) = some actual_update) :
    ((tbl.rows.filter (rowMatches (tbl.headers.indexOf actual_search)
        (tbl.headers.indexOf actual_update) search_value)).length = 0 →
      update_value_in_text_file (some tbl) search_column search_value
          update_column new_value = (UpdateOutcome.noMatches, some tbl)) ∧
    (0 < (tbl.rows.filter (rowMatches (tbl.headers.indexOf actual_search)
        (tbl.headers.indexOf actual_update) search_value)).length →
      update_value_in_text_file (some tbl) search_column search_value
          update_column new_value =
        (UpdateOutcome.success
          (tbl.rows.filter (rowMatches (tbl.headers.indexOf actual_search)
            (tbl.headers.indexOf actual_update) search_value)).length,
         some { headers := tbl.headers,
                rows := tbl.rows.map (updateRow (tbl.headers.indexOf actual_search)
                  (tbl.headers.indexOf actual_update) search_value new_value) })) ∧
    (tbl.rows.map (updateRow (tbl.headers.indexOf actual_search)
      (tbl.headers.indexOf actual_update) search_value new_value)).length =
        tbl.rows.length ∧
    (∀ row, rowMatches (tbl.headers.indexOf actual_search)
        (tbl.headers.indexOf actual_update) search_value row = false →
      updateRow (tbl.headers.indexOf actual_search)
        (tbl.headers.indexOf actual_update) search_value new_value row = row) ∧
    (∀ row, rowMatches (tbl.headers.indexOf actual_search)
        (tbl.headers.indexOf actual_update) search_value row = true →
      (updateRow (tbl.headers.indexOf actual_search)
          (tbl.headers.indexOf actual_update) search_value new_value row).length =
        row.length ∧
      (updateRow (tbl.headers.indexOf actual_search)
          (tbl.headers.indexOf actual_update) search_value new_value row).getD
        (tbl.headers.indexOf actual_update) "" = new_value ∧
      (∀ j, ¬(j = tbl.headers.indexOf actual_update) →
        (updateRow (tbl.headers.indexOf actual_search)
            (tbl.headers.indexOf actual_update) search_value new_value row).getD
          j "" = row.getD j "")) := by
  have hbody : ∀ cnt : Nat,
      (tbl.rows.filter (rowMatches (tbl.headers.indexOf actual_search)
        (tbl.headers.indexOf actual_update) search_value)).length = cnt →
      update_value_in_text_file (some tbl) search_column search_value
          update_column new_value =
        (if cnt = 0 then (UpdateOutcome.noMatches, some tbl)
         else (UpdateOutcome.success cnt,
           some { headers := tbl.headers,
                  rows := tbl.rows.map (updateRow (tbl.headers.indexOf actual_search)
                    (tbl.headers.indexOf actual_update) search_value new_value) })) := by
    intro cnt hcnt
    rw [update_value_in_text_file, if_neg hh]
    simp only [hs, hu, hcnt]
  refine ⟨?_, ?_, List.length_map _ _, ?_, ?_⟩
  · intro h0
    rw [hbody _ h0, if_pos rfl]
  · intro hpos
    rw [hbody _ rfl, if_neg (Nat.pos_iff_ne_zero.mp hpos)]
  · intro row hrow
    rw [updateRow, if_neg (by simp [hrow])]
  · intro row hrow
    have hlt : tbl.headers.indexOf actual_update < row.length := by
      have hmax : max (tbl.headers.indexOf actual_search)
          (tbl.headers.indexOf actual_update) < row.length := by
        have := (Bool.and_eq_true _ _).mp hrow
        exact of_decide_eq_true this.1
      exact lt_of_le_of_lt (le_max_right _ _) hmax
    refine ⟨?_, ?_, ?_⟩
    · rw [updateRow, if_pos hrow, List.length_set]
    · rw [updateRow, if_pos hrow]
      exact getD_set_self _ _ _ _ hlt
    · intro j hj
      rw [updateRow, if_pos hrow]
      exact getD_set_ne _ _ _ _ _ hj

/-- C9 witness: updating `name` of the row with `id = " 2 "` (matching is
whitespace-insensitive) rewrites exactly that cell and reports one updated
row. -/
theorem update_frame_property_witness :
    update_value_in_text_file (some c9_table) "ID" " 2 " "Name" "robert" =
      (UpdateOutcome.success 1,
       some { headers := ["id", "name"],
              rows := [["1", "alice"], ["2", "robert"], ["x"]] }) := by
  have h := (update_frame_property c9_table "ID" " 2 " "Name" "robert" "id" "name"
    (by decide) (by decide) (by decide)).2.1 (by decide)
  rw [h]
  rfl

/-- The eligible stage for a plan step is never the report agent. -/
theorem eligibleAgent_ne_report (a : ActionType) :
    ¬(eligibleAgent a = WorkerAgent.report) := by
  cases a <;> simp [eligibleAgent]

/-- Under the plan-following oracle the run returns to the supervisor after
each dispatched worker: after `2 * i` transitions (`i ≤ N` plan steps
dispatched and completed) the run sits at the supervisor with `i` dispatch
decisions made. -/
theorem planTrace_even (plan : List ReasoningStep) :
    ∀ i, i ≤ plan.length →
      supervisorTrace (planOracle plan) (2 * i) = (i, GraphNode.supervisor) := by
  intro i
  induction i with
  | zero => intro _; rfl
  | succ i ih =>
    intro h
    have hi : i < plan.length := Nat.lt_of_succ_le h
    have e0 : supervisorTrace (planOracle plan) (2 * i) = (i, GraphNode.supervisor) :=
      ih (Nat.le_of_lt hi)
    have e1 : supervisorTrace (planOracle plan) (2 * i + 1) =
        (i + 1, GraphNode.worker (eligibleAgent (plan.get ⟨i, hi⟩).action_type)) := by
      show supervisorStep (planOracle plan)
        (supervisorTrace (planOracle plan) (2 * i)) = _
      rw [e0]
      show (i + 1, GraphNode.worker (planOracle plan i)) = _
      simp only [planOracle]
      rw [dif_pos hi]
    have e2 : 2 * (i + 1) = (2 * i + 1) + 1 := by ring
    rw [e2]
    show supervisorStep (planOracle plan)
      (supervisorTrace (planOracle plan) (2 * i + 1)) = _
    rw [e1]
    cases hat : (plan.get ⟨i, hi⟩).action_type <;> rfl

/-- The dispatch-count invariant holds along every run driven by the
plan-following oracle. -/
theorem planTrace_bounded (plan : List ReasoningStep) :
    ∀ m, boundedState plan.length (supervisorTrace (planOracle plan) m) := by
  intro m
  induction m with
  | zero => exact Nat.zero_le _
  | succ m ih =>
    rcases hm : supervisorTrace (planOracle plan) m with ⟨k, node⟩
    rw [hm] at ih
    show boundedState plan.length
      (supervisorStep (planOracle plan) (supervisorTrace (planOracle plan) m))
    rw [hm]
    cases node with
    | supervisor =>
      have hk : k ≤ plan.length := ih
      rcases Nat.lt_or_ge k plan.length with hlt | hge
      · show boundedState plan.length (k + 1, GraphNode.worker (planOracle plan k))
        simp only [planOracle]
        rw [dif_pos hlt]
        cases (plan.get ⟨k, hlt⟩).action_type <;> exact Nat.succ_le_of_lt hlt
      · have hkN : k = plan.length := Nat.le_antisymm hk hge
        subst hkN
        show boundedState plan.length
          (plan.length + 1, GraphNode.worker (planOracle plan plan.length))
        simp only [planOracle]
        rw [dif_neg (lt_irrefl _)]
        rfl
    | worker a =>
      cases a with
      | infoRetriever => exact ih
      | execution => exact ih
      | validation => exact ih
      | report => exact le_of_eq ih
    | terminal => exact ih

/-- The invariant bounds the dispatch-decision count by `N + 1`. -/
theorem boundedState_fst_le (N : Nat) (s : Nat × GraphNode)
    (h : boundedState N s) : s.1 ≤ N + 1 := by
  rcases s with ⟨k, node⟩
  cases node with
  | supervisor => exact le_trans h (Nat.le_succ _)
  | worker a =>
    cases a with
    | infoRetriever => exact le_trans h (Nat.le_succ _)
    | execution => exact le_trans h (Nat.le_succ _)
    | validation => exact le_trans h (Nat.le_succ _)
    | report => exact le_of_eq h
  | terminal => exact h

/-- C1 counterexample: the supervisor's next handoff is chosen by its LLM;
nothing programmatic stops the behaviour modelled by `loopingOracle`,
which keeps dispatching the validation agent. For the one-step plan
`singleStepPlan` (bound `N + 1 = 2`), the first two dispatch decisions are
both to the validation agent (so the single VERIFY ordinal is re-dispatched
after having been completed) and after a third decision the run still sits
at a validation node; the run in fact never reaches the report stage, as
every reachable node is the supervisor or the validation worker. -/
theorem dispatch_bound_counterexample :
    singleStepPlan.length = 1 ∧
    (List.range 2).map loopingOracle =
      [WorkerAgent.validation, WorkerAgent.validation] ∧
    supervisorTrace loopingOracle 1 = (1, GraphNode.worker WorkerAgent.validation) ∧
    supervisorTrace loopingOracle 3 = (2, GraphNode.worker WorkerAgent.validation) ∧
    supervisorTrace loopingOracle 5 = (3, GraphNode.worker WorkerAgent.validation) ∧
    (∀ n, (supervisorTrace loopingOracle n).2 = GraphNode.supervisor ∨
      (supervisorTrace loopingOracle n).2 =
        GraphNode.worker WorkerAgent.validation) := by
  refine ⟨rfl, rfl, rfl, rfl, rfl, ?_⟩
  intro n
  induction n with
  | zero => exact Or.inl rfl
  | succ n ih =>
    rcases hm : supervisorTrace loopingOracle n with ⟨k, node⟩
    rw [hm] at ih
    show (supervisorStep loopingOracle (supervisorTrace loopingOracle n)).2 = _ ∨
      (supervisorStep loopingOracle (supervisorTrace loopingOracle n)).2 = _
    rw [hm]
    rcases ih with h | h
    · have h' : node = GraphNode.supervisor := h
      subst h'
      exact Or.inr rfl
    · have h' : node = GraphNode.worker WorkerAgent.validation := h
      subst h'
      exact Or.inl rfl

/-- C1 amended: the graph wiring alone (workers return to the supervisor,
only the report agent reaches the terminal) does not bound the dispatch
loop; the claimed bound holds exactly for a well-behaved dispatch sequence.
For the plan-following oracle — which dispatches plan ordinal `i` at
decision `i` (hence each ordinal exactly once, never to the report agent)
and hands off to the report agent at decision `N` — the run reaches the
report stage with exactly `N + 1` dispatch decisions, and no point of the
run ever exceeds `N + 1` decisions. -/
theorem dispatch_bound_for_plan_following_oracle (plan : List ReasoningStep) :
    supervisorTrace (planOracle plan) (2 * plan.length + 1) =
      (plan.length + 1, GraphNode.worker WorkerAgent.report) ∧
    (∀ m, (supervisorTrace (planOracle plan) m).1 ≤ plan.length + 1) ∧
    (∀ i, i < plan.length → ¬(planOracle plan i = WorkerAgent.report)) ∧
    planOracle plan plan.length = WorkerAgent.report := by
  refine ⟨?_, ?_, ?_, ?_⟩
  · show supervisorStep (planOracle plan)
      (supervisorTrace (planOracle plan) (2 * plan.length)) = _
    rw [planTrace_even plan plan.length le_rfl]
    show (plan.length + 1, GraphNode.worker (planOracle plan plan.length)) = _
    simp only [planOracle]
    rw [dif_neg (lt_irrefl _)]
  · intro m
    exact boundedState_fst_le _ _ (planTrace_bounded plan m)
  · intro i hi
    simp only [planOracle]
    rw [dif_pos hi]
    exact eligibleAgent_ne_report _
  · simp only [planOracle]
    rw [dif_neg (lt_irrefl _)]

/-- C1 witness: the amended bound at the concrete one-step plan: the run
reaches the report worker after dispatch decision 2 = N + 1, decision 0 is
not a report dispatch, and decision 1 is the report dispatch. -/
theorem dispatch_bound_for_plan_following_oracle_witness :
    supervisorTrace (planOracle singleStepPlan) 3 =
      (2, GraphNode.worker WorkerAgent.report) ∧
    ¬(planOracle singleStepPlan 0 = WorkerAgent.report) ∧
    planOracle singleStepPlan 1 = WorkerAgent.report := by
  have h := dispatch_bound_for_plan_following_oracle singleStepPlan
  exact ⟨h.1, h.2.2.1 0 (by decide), h.2.2.2⟩
